import Mathlib

/-!
# Verification of fensterchef's binding merge and event dispatch core

This file gives a shallow embedding of the two source files of the
fensterchef repository that form its input-binding and event-dispatch core:

* `src/default_configuration.c` — the default configuration and the two
  merge functions `merge_with_default_button_bindings` and
  `merge_with_default_key_bindings`;
* `src/event.c` — the event dispatcher `handle_event` and its per-kind
  handlers, including the pointer-grab machinery for moving popup windows.

Machine integers of the C source (`uint16_t` modifiers/flags,
`xcb_keysym_t`, `xcb_button_t`, event type codes) are embedded as `Nat`;
all values involved stay far below any wrap-around boundary, and the only
arithmetic performed on them is bitwise `or`, which cannot overflow a
`uint16_t`/`uint32_t` when both operands fit.  Signed `int16_t`
coordinates are embedded as `Int`.  C arrays with an explicit count are
embedded as Lean lists (the count is the list length).  Heap ownership and
the deep copies done by `xmemdup`/`duplicate_data_value` are value copies
in this pure embedding.  External collaborators (window registry, X
server) are an explicit environment of query functions, and the requests
the handlers send to them are an explicit output trace.
-/

namespace Fensterchef

/-! ## XCB / X11 constants used by the source -/

def XCB_MOD_MASK_SHIFT : Nat := 1
def XCB_MOD_MASK_LOCK : Nat := 2
def XCB_MOD_MASK_CONTROL : Nat := 4
def XCB_MOD_MASK_2 : Nat := 16
def XCB_MOD_MASK_3 : Nat := 32
def XCB_MOD_MASK_4 : Nat := 64
def XCB_MOD_MASK_5 : Nat := 128

def XK_space : Nat := 0x20
def XK_plus : Nat := 0x2b
def XK_minus : Nat := 0x2d
def XK_equal : Nat := 0x3d
def XK_Return : Nat := 0xff0d
def XK_Left : Nat := 0xff51
def XK_Up : Nat := 0xff52
def XK_Right : Nat := 0xff53
def XK_Down : Nat := 0xff54
def XK_a : Nat := 0x61
def XK_b : Nat := 0x62
def XK_e : Nat := 0x65
def XK_f : Nat := 0x66
def XK_h : Nat := 0x68
def XK_j : Nat := 0x6a
def XK_k : Nat := 0x6b
def XK_l : Nat := 0x6c
def XK_n : Nat := 0x6e
def XK_p : Nat := 0x70
def XK_q : Nat := 0x71
def XK_r : Nat := 0x72
def XK_s : Nat := 0x73
def XK_v : Nat := 0x76
def XK_w : Nat := 0x77

/-! ## Action payload model

`Action` is `struct Action` of the source: an action code together with a
parameter.  The parameter is a C union whose live member is determined by
the code (`get_action_data_type`); it is embedded as a sum.  The action
codes are the enumerators of `action.h` referenced by
`default_configuration.c`; their numeric values are irrelevant to every
claim (only equality of codes matters), so they are embedded as an
inductive enumeration. -/

inductive ActionCode where
  | ACTION_RELOAD_CONFIGURATION
  | ACTION_PARENT_FRAME
  | ACTION_CHILD_FRAME
  | ACTION_ROOT_FRAME
  | ACTION_CLOSE_WINDOW
  | ACTION_MINIMIZE_WINDOW
  | ACTION_NEXT_WINDOW
  | ACTION_PREVIOUS_WINDOW
  | ACTION_REMOVE_FRAME
  | ACTION_TOGGLE_TILING
  | ACTION_TOGGLE_FULLSCREEN
  | ACTION_TOGGLE_FOCUS
  | ACTION_SPLIT_HORIZONTALLY
  | ACTION_SPLIT_VERTICALLY
  | ACTION_FOCUS_UP
  | ACTION_FOCUS_LEFT
  | ACTION_FOCUS_RIGHT
  | ACTION_FOCUS_DOWN
  | ACTION_EXCHANGE_UP
  | ACTION_EXCHANGE_LEFT
  | ACTION_EXCHANGE_RIGHT
  | ACTION_EXCHANGE_DOWN
  | ACTION_RESIZE_BY
  | ACTION_SHOW_WINDOW_LIST
  | ACTION_RUN
  | ACTION_QUIT
  | ACTION_INITIATE_RESIZE
  | ACTION_INITIATE_MOVE
deriving DecidableEq

/-- The parameter union of an `Action`.  `none` embeds a zero-initialized
union (the designated initializers `{ .code = X }` of the source leave the
parameter zeroed), `quad` embeds the `.quad` member (four 32-bit signed
integers), `string` embeds the owned text member. -/
inductive DataValue where
  | none
  | quad (a b c d : Int)
  | string (s : String)
deriving DecidableEq

/-- `struct Action` of `action.h`: the singular action of a default binding
in `default_configuration.c` is one of these. -/
structure Action where
  code : ActionCode
  parameter : DataValue
deriving DecidableEq

/-! ## Binding tables

`struct configuration_key` (modifiers, key_symbol, flags, actions array
with count) and `struct configuration_button` (modifiers, index, flags,
actions array with count) have the same shape once the actions array is a
list; both are embedded as `ConfigurationBinding`, with `symbol` standing
for the key symbol of a key binding and for the button index of a button
binding. -/

structure ConfigurationBinding where
  modifiers : Nat
  symbol : Nat
  flags : Nat
  actions : List Action
deriving DecidableEq

/-- The trigger triple of one binding. -/
def binding_trigger (b : ConfigurationBinding) : Nat × Nat × Nat :=
  (b.modifiers, b.symbol, b.flags)

/-- `binding_matches modifiers symbol flags b` holds exactly when `b`'s
trigger equals `(modifiers, symbol, flags)`. -/
def binding_matches (modifiers symbol flags : Nat) (b : ConfigurationBinding) : Bool :=
  b.modifiers == modifiers && b.symbol == symbol && b.flags == flags

/-- Modelled from the spec: `find_configured_key` / `find_configured_button`
live in `configuration.c`, which is not among the given source files.  The
spec describes the lookup as checking "whether an entry with the same
effective trigger already exists (exact match on modifiers, symbol/index,
and flags)" within the first `count` entries of the table, so it is the
first exact-trigger match over the stored entries. -/
def find_configured_binding (bindings : List ConfigurationBinding)
    (modifiers symbol flags : Nat) : Option ConfigurationBinding :=
  bindings.find? (binding_matches modifiers symbol flags)

/-- The keyboard part of `struct configuration`: the table-wide base
modifier `keyboard.modifiers` and the key binding table
`keyboard.keys` / `keyboard.number_of_keys`. -/
structure Keyboard where
  modifiers : Nat
  keys : List ConfigurationBinding
deriving DecidableEq

/-- The mouse part of `struct configuration`: the table-wide base modifier
`mouse.modifiers` and the button binding table
`mouse.buttons` / `mouse.number_of_buttons`. -/
structure Mouse where
  modifiers : Nat
  buttons : List ConfigurationBinding
deriving DecidableEq

/-- One entry of the `default_bindings` local array of either merge
function: the partially specified modifiers, the binding flags, the key
symbol or button index, and the singular action template. -/
structure DefaultBinding where
  modifiers : Nat
  flags : Nat
  symbol : Nat
  action : Action
deriving DecidableEq

/-- The effective trigger a default acquires inside the merge:
its modifiers are OR-ed with the table-wide base modifier. -/
def effective_trigger (base : Nat) (d : DefaultBinding) : Nat × Nat × Nat :=
  (d.modifiers ||| base, d.symbol, d.flags)

/-! ## The default binding lists of `default_configuration.c` -/

open ActionCode in
/-- The `default_bindings` array local to
`merge_with_default_button_bindings` (lines 85–92 of
`default_configuration.c`), in declaration order. -/
def default_button_bindings : List DefaultBinding := [
  ⟨0, 0, 1, ⟨ACTION_INITIATE_RESIZE, DataValue.none⟩⟩,
  ⟨0, 0, 2, ⟨ACTION_MINIMIZE_WINDOW, DataValue.none⟩⟩,
  ⟨0, 0, 3, ⟨ACTION_INITIATE_MOVE, DataValue.none⟩⟩]

open ActionCode in
/-- The `default_bindings` array local to
`merge_with_default_key_bindings` (lines 158–255 of
`default_configuration.c`), in declaration order. -/
def default_key_bindings : List DefaultBinding := [
  ⟨XCB_MOD_MASK_SHIFT, 0, XK_r, ⟨ACTION_RELOAD_CONFIGURATION, DataValue.none⟩⟩,
  ⟨0, 0, XK_a, ⟨ACTION_PARENT_FRAME, DataValue.none⟩⟩,
  ⟨0, 0, XK_b, ⟨ACTION_CHILD_FRAME, DataValue.none⟩⟩,
  ⟨XCB_MOD_MASK_SHIFT, 0, XK_a, ⟨ACTION_ROOT_FRAME, DataValue.none⟩⟩,
  ⟨0, 0, XK_q, ⟨ACTION_CLOSE_WINDOW, DataValue.none⟩⟩,
  ⟨0, 0, XK_minus, ⟨ACTION_MINIMIZE_WINDOW, DataValue.none⟩⟩,
  ⟨0, 0, XK_n, ⟨ACTION_NEXT_WINDOW, DataValue.none⟩⟩,
  ⟨0, 0, XK_p, ⟨ACTION_PREVIOUS_WINDOW, DataValue.none⟩⟩,
  ⟨0, 0, XK_r, ⟨ACTION_REMOVE_FRAME, DataValue.none⟩⟩,
  ⟨XCB_MOD_MASK_SHIFT, 0, XK_space, ⟨ACTION_TOGGLE_TILING, DataValue.none⟩⟩,
  ⟨0, 0, XK_f, ⟨ACTION_TOGGLE_FULLSCREEN, DataValue.none⟩⟩,
  ⟨0, 0, XK_space, ⟨ACTION_TOGGLE_FOCUS, DataValue.none⟩⟩,
  ⟨0, 0, XK_v, ⟨ACTION_SPLIT_HORIZONTALLY, DataValue.none⟩⟩,
  ⟨0, 0, XK_s, ⟨ACTION_SPLIT_VERTICALLY, DataValue.none⟩⟩,
  ⟨0, 0, XK_k, ⟨ACTION_FOCUS_UP, DataValue.none⟩⟩,
  ⟨0, 0, XK_h, ⟨ACTION_FOCUS_LEFT, DataValue.none⟩⟩,
  ⟨0, 0, XK_l, ⟨ACTION_FOCUS_RIGHT, DataValue.none⟩⟩,
  ⟨0, 0, XK_j, ⟨ACTION_FOCUS_DOWN, DataValue.none⟩⟩,
  ⟨XCB_MOD_MASK_SHIFT, 0, XK_k, ⟨ACTION_EXCHANGE_UP, DataValue.none⟩⟩,
  ⟨XCB_MOD_MASK_SHIFT, 0, XK_h, ⟨ACTION_EXCHANGE_LEFT, DataValue.none⟩⟩,
  ⟨XCB_MOD_MASK_SHIFT, 0, XK_l, ⟨ACTION_EXCHANGE_RIGHT, DataValue.none⟩⟩,
  ⟨XCB_MOD_MASK_SHIFT, 0, XK_j, ⟨ACTION_EXCHANGE_DOWN, DataValue.none⟩⟩,
  ⟨XCB_MOD_MASK_CONTROL, 0, XK_Left, ⟨ACTION_RESIZE_BY, DataValue.quad 20 0 0 0⟩⟩,
  ⟨XCB_MOD_MASK_CONTROL, 0, XK_Up, ⟨ACTION_RESIZE_BY, DataValue.quad 0 20 0 0⟩⟩,
  ⟨XCB_MOD_MASK_CONTROL, 0, XK_Right, ⟨ACTION_RESIZE_BY, DataValue.quad (-20) 0 0 0⟩⟩,
  ⟨XCB_MOD_MASK_CONTROL, 0, XK_Down, ⟨ACTION_RESIZE_BY, DataValue.quad 0 (-20) 0 0⟩⟩,
  ⟨XCB_MOD_MASK_SHIFT, 0, XK_Left, ⟨ACTION_RESIZE_BY, DataValue.quad 0 0 (-20) 0⟩⟩,
  ⟨XCB_MOD_MASK_SHIFT, 0, XK_Up, ⟨ACTION_RESIZE_BY, DataValue.quad 0 0 0 (-20)⟩⟩,
  ⟨XCB_MOD_MASK_SHIFT, 0, XK_Right, ⟨ACTION_RESIZE_BY, DataValue.quad 0 0 20 0⟩⟩,
  ⟨XCB_MOD_MASK_SHIFT, 0, XK_Down, ⟨ACTION_RESIZE_BY, DataValue.quad 0 0 0 20⟩⟩,
  ⟨0, 0, XK_Left, ⟨ACTION_RESIZE_BY, DataValue.quad 20 0 (-20) 0⟩⟩,
  ⟨0, 0, XK_Up, ⟨ACTION_RESIZE_BY, DataValue.quad 0 20 0 (-20)⟩⟩,
  ⟨0, 0, XK_Right, ⟨ACTION_RESIZE_BY, DataValue.quad (-20) 0 20 0⟩⟩,
  ⟨0, 0, XK_Down, ⟨ACTION_RESIZE_BY, DataValue.quad 0 (-20) 0 20⟩⟩,
  ⟨XCB_MOD_MASK_CONTROL, 0, XK_plus, ⟨ACTION_RESIZE_BY, DataValue.quad 10 10 10 10⟩⟩,
  ⟨XCB_MOD_MASK_CONTROL, 0, XK_minus, ⟨ACTION_RESIZE_BY, DataValue.quad (-10) (-10) (-10) (-10)⟩⟩,
  ⟨XCB_MOD_MASK_CONTROL, 0, XK_equal, ⟨ACTION_RESIZE_BY, DataValue.quad 10 10 10 10⟩⟩,
  ⟨0, 0, XK_w, ⟨ACTION_SHOW_WINDOW_LIST, DataValue.none⟩⟩,
  ⟨0, 0, XK_Return, ⟨ACTION_RUN,
      DataValue.string "[ -n \"$TERMINAL\" ] && exec \"$TERMINAL\" || exec xterm"⟩⟩,
  ⟨XCB_MOD_MASK_CONTROL ||| XCB_MOD_MASK_SHIFT, 0, XK_e, ⟨ACTION_QUIT, DataValue.none⟩⟩]

/-! ## The merge algorithm

Both merge functions have the same two-pass shape over their
`default_bindings` array.  Pass 1 computes `new_count`; if nothing is to be
added the function returns early; pass 2 appends, for every default whose
effective trigger is not found among the ORIGINAL entries (the stored count
is updated only after the loop, so entries appended earlier in the same
call are invisible to `find_configured_key`/`find_configured_button`), a
new binding carrying the effective modifiers, the symbol/index, the flags,
and a one-element action array deep-copied from the template
(`xmemdup` + `duplicate_data_value`; a value copy here). -/

/-- Whether pass 1 counts the default as new: its effective trigger has no
exact match among the table's stored entries. -/
def default_is_new (existing : List ConfigurationBinding) (base : Nat)
    (d : DefaultBinding) : Bool :=
  (find_configured_binding existing (d.modifiers ||| base) d.symbol d.flags).isNone

/-- The binding pass 2 appends for one default: effective modifiers,
symbol/index and flags copied, and a singular action
(`number_of_actions = 1`) equal by value to the template. -/
def default_binding_as_new (base : Nat) (d : DefaultBinding) : ConfigurationBinding :=
  { modifiers := d.modifiers ||| base, symbol := d.symbol, flags := d.flags,
    actions := [d.action] }

/-- The bindings appended by pass 2, in declaration order of the defaults;
each default's duplicate check runs against the original entries only. -/
def merge_new_bindings (existing : List ConfigurationBinding) (base : Nat)
    (defaults : List DefaultBinding) : List ConfigurationBinding :=
  defaults.filterMap (fun d =>
    if default_is_new existing base d then some (default_binding_as_new base d)
    else none)

/-- The common two-pass merge of `merge_with_default_key_bindings` and
`merge_with_default_button_bindings`: pass 1 computes `new_count`; the
early return fires when nothing is new; otherwise pass 2 appends the new
bindings after the existing ones and the stored count becomes
`new_count`. -/
def merge_bindings (existing : List ConfigurationBinding) (base : Nat)
    (defaults : List DefaultBinding) : List ConfigurationBinding :=
  let new_count := existing.length + defaults.countP (default_is_new existing base)
  if new_count = existing.length then
    existing
  else
    existing ++ merge_new_bindings existing base defaults

/-- `merge_with_default_key_bindings` of `default_configuration.c`
(lines 144–302), acting on the keyboard part of the configuration. -/
def merge_with_default_key_bindings (c : Keyboard) : Keyboard :=
  { c with keys := merge_bindings c.keys c.modifiers default_key_bindings }

/-- `merge_with_default_button_bindings` of `default_configuration.c`
(lines 71–139), acting on the mouse part of the configuration. -/
def merge_with_default_button_bindings (c : Mouse) : Mouse :=
  { c with buttons := merge_bindings c.buttons c.modifiers default_button_bindings }

/-- The trigger-uniqueness invariant of a binding table: no two entries
share an equal (modifiers, symbol/index, flags) triple. -/
def trigger_unique (bindings : List ConfigurationBinding) : Prop :=
  bindings.Pairwise (fun b b' => binding_trigger b ≠ binding_trigger b')

instance (bindings : List ConfigurationBinding) : Decidable (trigger_unique bindings) :=
  inferInstanceAs (Decidable (bindings.Pairwise _))

/-! ## Event dispatch (`event.c`)

The dispatcher's externally visible behavior is embedded as a function
from an environment (the replies the external collaborators give to the
queries the handlers make), the mutable state of `event.c` (the
`selected_window` singleton, together with whether the X server currently
holds our exclusive pointer grab — the spec's `active` flag, set by
`xcb_grab_pointer` and cleared by `xcb_ungrab_pointer`), and one raw
event, to the new state and the ordered list of requests sent out.
`log_event`/`LOG` calls produce no request (logging is not modelled). -/

/-- Core event type codes of the X protocol (`xcb.h`). -/
def XCB_KEY_PRESS : Nat := 2
def XCB_BUTTON_PRESS : Nat := 4
def XCB_BUTTON_RELEASE : Nat := 5
def XCB_MOTION_NOTIFY : Nat := 6
def XCB_DESTROY_NOTIFY : Nat := 17
def XCB_UNMAP_NOTIFY : Nat := 18
def XCB_MAP_REQUEST : Nat := 20
def XCB_CONFIGURE_REQUEST : Nat := 23
def XCB_PROPERTY_NOTIFY : Nat := 28

/-- Predefined atoms used by `handle_property_notify`. -/
def XCB_ATOM_WM_NAME : Nat := 39
def XCB_ATOM_WM_SIZE_HINTS : Nat := 41
def XCB_ATOM_WM_HINTS : Nat := 35

/-- `xcb_configure_window` value mask bits (`xcb.h`). -/
def XCB_CONFIG_WINDOW_X : Nat := 1
def XCB_CONFIG_WINDOW_Y : Nat := 2
def XCB_CONFIG_WINDOW_WIDTH : Nat := 4
def XCB_CONFIG_WINDOW_HEIGHT : Nat := 8
def XCB_CONFIG_WINDOW_BORDER_WIDTH : Nat := 16

/-- Modelled from the spec: `XCB_CONFIG_SIZE` is a macro of `util.h`, which
is not among the given source files.  The spec says the configure-request
handler echoes back "the requested position, size, and border width
unchanged", and the handler fills the five values x, y, width, height,
border_width, so the macro covers the X, Y, WIDTH and HEIGHT mask bits. -/
def XCB_CONFIG_SIZE : Nat :=
  XCB_CONFIG_WINDOW_X ||| XCB_CONFIG_WINDOW_Y |||
  XCB_CONFIG_WINDOW_WIDTH ||| XCB_CONFIG_WINDOW_HEIGHT

/-- A display state of a managed window (`window.h` is not among the given
source files; the dispatcher only distinguishes the popup state, compares
nothing else, and forces the hidden state on unmap). -/
inductive WindowDisplayState where
  | popup
  | hidden
  | other
deriving DecidableEq

/-- `Position` of `event.c`'s `selected_window` singleton. -/
structure Position where
  x : Int
  y : Int
deriving DecidableEq

/-- The `selected_window` singleton of `event.c`: the state used for moving
a popup window. -/
structure SelectedWindow where
  start : Position
  old_mouse : Position
  xcb_window : Nat
deriving DecidableEq

/-- The mutable state of `event.c` relevant to the grab machinery:
`selected_window` plus `grab_active`, which embeds whether the X server
currently holds this client's exclusive pointer grab (the spec's `active`
flag): `xcb_grab_pointer` sets it, `xcb_ungrab_pointer` clears it. -/
structure DispatcherState where
  selected_window : SelectedWindow
  grab_active : Bool
deriving DecidableEq

/-- `xcb_get_geometry_reply`'s payload, as far as the handlers read it. -/
structure Geometry where
  x : Int
  y : Int
  width : Nat
  height : Nat
deriving DecidableEq

/-- The replies of the external collaborators to the queries the handlers
make: `window_of` embeds `get_window_of_xcb_window` (giving the display
state of the managed window, or `none` for an untracked one), `geometry`
embeds the synchronous `xcb_get_geometry` round trip (`none` embeds a NULL
reply), and `action_of_key` embeds `get_action_bind` of `keybind.c`
(resolving the pressed key against the key binding table; `none` embeds
`ACTION_NULL`). -/
structure Env where
  window_of : Nat → Option WindowDisplayState
  geometry : Nat → Option Geometry
  action_of_key : Nat → Option Nat

/-- The union of the event fields the handlers read, with the generic
`response_type` tag; each C handler casts the generic event pointer to its
specific struct, which is embedded as reading the corresponding fields. -/
structure RawEvent where
  response_type : Nat
  window : Nat
  child : Nat
  root : Nat
  root_x : Int
  root_y : Int
  x : Int
  y : Int
  width : Int
  height : Int
  border_width : Int
  atom : Nat
  detail : Nat
deriving DecidableEq

/-- A request sent to an external collaborator or to the X server. -/
inductive Request where
  | create_window (xcb_window : Nat)
  | set_focus_window (xcb_window : Nat)
  | grab_pointer (root : Nat)
  | ungrab_pointer
  | configure_window (xcb_window : Nat) (mask : Nat) (values : List Int)
  | update_window_name (xcb_window : Nat)
  | update_window_size_hints (xcb_window : Nat)
  | update_window_wm_hints (xcb_window : Nat)
  | set_window_state_predicted (xcb_window : Nat)
  | set_window_state (xcb_window : Nat) (state : WindowDisplayState) (force : Bool)
  | destroy_window (xcb_window : Nat)
  | do_action (action : Nat)
  | merge_monitors
deriving DecidableEq

/-- `handle_map_request`: a tracked window is a no-op, an untracked one is
created and focused. -/
def handle_map_request (env : Env) (st : DispatcherState) (event : RawEvent) :
    DispatcherState × List Request :=
  match env.window_of event.window with
  | some _ => (st, [])
  | none => (st, [Request.create_window event.window,
                  Request.set_focus_window event.window])

/-- `handle_button_press`: only for a tracked window in the popup state
whose geometry query succeeds does the handler fill `selected_window`
(note that BOTH components of `start` are assigned `event->root_y` in the
source) and acquire the exclusive pointer grab. -/
def handle_button_press (env : Env) (st : DispatcherState) (event : RawEvent) :
    DispatcherState × List Request :=
  match env.window_of event.child with
  | none => (st, [])
  | some state =>
    if state ≠ WindowDisplayState.popup then (st, [])
    else
      match env.geometry event.child with
      | none => (st, [])
      | some _ =>
        ({ selected_window :=
             { start := ⟨event.root_y, event.root_y⟩,
               old_mouse := ⟨event.root_x, event.root_y⟩,
               xcb_window := event.child },
           grab_active := true },
         [Request.grab_pointer event.root])

/-- `handle_motion_notify`: queries the geometry of
`selected_window.xcb_window` (without consulting any grab flag); on a NULL
reply it ungrabs the pointer, otherwise it repositions the window by the
mouse motion delta and stores the new mouse position. -/
def handle_motion_notify (env : Env) (st : DispatcherState) (event : RawEvent) :
    DispatcherState × List Request :=
  match env.geometry st.selected_window.xcb_window with
  | none => ({ st with grab_active := false }, [Request.ungrab_pointer])
  | some geometry =>
    ({ st with selected_window :=
         { st.selected_window with old_mouse := ⟨event.root_x, event.root_y⟩ } },
     [Request.configure_window st.selected_window.xcb_window
        (XCB_CONFIG_WINDOW_X ||| XCB_CONFIG_WINDOW_Y)
        [geometry.x + (event.root_x - st.selected_window.old_mouse.x),
         geometry.y + (event.root_y - st.selected_window.old_mouse.y)]])

/-- `handle_button_release`: unconditionally ungrabs the pointer. -/
def handle_button_release (st : DispatcherState) (_event : RawEvent) :
    DispatcherState × List Request :=
  ({ st with grab_active := false }, [Request.ungrab_pointer])

/-- `handle_property_notify`: untracked windows are only logged; for a
tracked window the recognized atom's cached attribute is refreshed and the
predicted display state is applied non-forcibly. -/
def handle_property_notify (env : Env) (st : DispatcherState) (event : RawEvent) :
    DispatcherState × List Request :=
  match env.window_of event.window with
  | none => (st, [])
  | some _ =>
    let refresh :=
      if event.atom = XCB_ATOM_WM_NAME then [Request.update_window_name event.window]
      else if event.atom = XCB_ATOM_WM_SIZE_HINTS then
        [Request.update_window_size_hints event.window]
      else if event.atom = XCB_ATOM_WM_HINTS then
        [Request.update_window_wm_hints event.window]
      else []
    (st, refresh ++ [Request.set_window_state_predicted event.window])

/-- `handle_unmap_notify`: a tracked window's display state is forced to
hidden. -/
def handle_unmap_notify (env : Env) (st : DispatcherState) (event : RawEvent) :
    DispatcherState × List Request :=
  match env.window_of event.window with
  | none => (st, [])
  | some _ =>
    (st, [Request.set_window_state event.window WindowDisplayState.hidden true])

/-- `handle_destroy_notify`: a tracked window's record is destroyed. -/
def handle_destroy_notify (env : Env) (st : DispatcherState) (event : RawEvent) :
    DispatcherState × List Request :=
  match env.window_of event.window with
  | none => (st, [])
  | some _ => (st, [Request.destroy_window event.window])

/-- `handle_key_press`: a resolved binding's action is executed, an
unresolved key is only logged. -/
def handle_key_press (env : Env) (st : DispatcherState) (event : RawEvent) :
    DispatcherState × List Request :=
  match env.action_of_key event.detail with
  | some action => (st, [Request.do_action action])
  | none => (st, [])

/-- `handle_configure_request`: a tracked window's request is ignored; for
an untracked window the five requested values are echoed back verbatim. -/
def handle_configure_request (env : Env) (st : DispatcherState) (event : RawEvent) :
    DispatcherState × List Request :=
  match env.window_of event.window with
  | some _ => (st, [])
  | none =>
    (st, [Request.configure_window event.window
            (XCB_CONFIG_SIZE ||| XCB_CONFIG_WINDOW_BORDER_WIDTH)
            [event.x, event.y, event.width, event.height, event.border_width]])

/-- `handle_screen_change`: re-enumerate the outputs and reconcile
(`merge_monitors(query_monitors())`). -/
def handle_screen_change (st : DispatcherState) :
    DispatcherState × List Request :=
  (st, [Request.merge_monitors])

/-- `handle_event` of `event.c`: clear the top "from-server" tag bit of the
response type; route everything at or above `randr_event_base` to
screen-change handling before any core dispatch; otherwise dispatch on the
core code, dropping codes with no case. -/
def handle_event (randr_event_base : Nat) (env : Env) (st : DispatcherState)
    (event : RawEvent) : DispatcherState × List Request :=
  let type := event.response_type &&& 0x7f
  if randr_event_base ≤ type then
    handle_screen_change st
  else if type = XCB_MAP_REQUEST then handle_map_request env st event
  else if type = XCB_BUTTON_PRESS then handle_button_press env st event
  else if type = XCB_MOTION_NOTIFY then handle_motion_notify env st event
  else if type = XCB_BUTTON_RELEASE then handle_button_release st event
  else if type = XCB_PROPERTY_NOTIFY then handle_property_notify env st event
  else if type = XCB_UNMAP_NOTIFY then handle_unmap_notify env st event
  else if type = XCB_DESTROY_NOTIFY then handle_destroy_notify env st event
  else if type = XCB_CONFIGURE_REQUEST then handle_configure_request env st event
  else if type = XCB_KEY_PRESS then handle_key_press env st event
  else (st, [])

/-! ## Concrete environments, states and events for evaluation -/

/-- An environment with no tracked windows, no geometry replies and no key
bindings. -/
def env_empty : Env :=
  { window_of := fun _ => none, geometry := fun _ => none,
    action_of_key := fun _ => none }

/-- An environment where window 7 is tracked, is in the popup state and
reports geometry `(x = 10, y = 20, 300 × 400)`; window 9 is untracked. -/
def env_popup7 : Env :=
  { window_of := fun w => if w = 7 then some WindowDisplayState.popup else none,
    geometry := fun w => if w = 7 then some ⟨10, 20, 300, 400⟩ else none,
    action_of_key := fun _ => none }

/-- The rest state of the dispatcher (zero-initialized statics, no grab). -/
def dispatcher_rest : DispatcherState :=
  { selected_window := { start := ⟨0, 0⟩, old_mouse := ⟨0, 0⟩, xcb_window := 0 },
    grab_active := false }

/-- A raw event with the given type code and every other field zero. -/
def event_of_code (t : Nat) : RawEvent :=
  { response_type := t, window := 0, child := 0, root := 0, root_x := 0,
    root_y := 0, x := 0, y := 0, width := 0, height := 0, border_width := 0,
    atom := 0, detail := 0 }

/-- The dispatcher state during (or, with the flag cleared, left over
after) a grab of window 7 that started at root position (100, 200). -/
def selected7_state (active : Bool) : DispatcherState :=
  { selected_window :=
      { start := ⟨200, 200⟩,
        old_mouse := ⟨100, 200⟩,
        xcb_window := 7 },
    grab_active := active }

/-- A motion event at root position (110, 205). -/
def motion_event_110_205 : RawEvent :=
  { event_of_code XCB_MOTION_NOTIFY with root_x := 110, root_y := 205 }

/-! ## Lemmas about the merge algorithm -/

theorem binding_matches_iff (m s f : Nat) (x : ConfigurationBinding) :
    binding_matches m s f x = true ↔ binding_trigger x = (m, s, f) := by
  simp [binding_matches, binding_trigger, and_assoc]

theorem binding_trigger_default_binding_as_new (b : Nat) (d : DefaultBinding) :
    binding_trigger (default_binding_as_new b d) = effective_trigger b d := rfl

theorem default_is_new_iff (e : List ConfigurationBinding) (b : Nat) (d : DefaultBinding) :
    default_is_new e b d = true ↔
      ∀ x ∈ e, ¬binding_matches (d.modifiers ||| b) d.symbol d.flags x := by
  rw [default_is_new, Option.isNone_iff_eq_none, find_configured_binding,
    List.find?_eq_none]

theorem default_is_new_congr (e : List ConfigurationBinding) (b : Nat)
    (d d' : DefaultBinding) (h : effective_trigger b d = effective_trigger b d') :
    default_is_new e b d = default_is_new e b d' := by
  obtain ⟨h1, h2, h3⟩ : d.modifiers ||| b = d'.modifiers ||| b ∧
      d.symbol = d'.symbol ∧ d.flags = d'.flags := by
    simpa [effective_trigger] using h
  rw [default_is_new, default_is_new, h1, h2, h3]

theorem merge_new_bindings_eq_filter_map (e : List ConfigurationBinding) (b : Nat)
    (ds : List DefaultBinding) :
    merge_new_bindings e b ds =
      (ds.filter (default_is_new e b)).map (default_binding_as_new b) := by
  unfold merge_new_bindings
  induction ds with
  | nil => rfl
  | cons d ds ih =>
    by_cases h : default_is_new e b d <;>
      simp [List.filterMap_cons, List.filter_cons, h, ih]

theorem merge_new_bindings_length (e : List ConfigurationBinding) (b : Nat)
    (ds : List DefaultBinding) :
    (merge_new_bindings e b ds).length = ds.countP (default_is_new e b) := by
  rw [merge_new_bindings_eq_filter_map, List.length_map]
  exact (List.countP_eq_length_filter _ _).symm

theorem merge_bindings_eq (e : List ConfigurationBinding) (b : Nat)
    (ds : List DefaultBinding) :
    merge_bindings e b ds = e ++ merge_new_bindings e b ds := by
  unfold merge_bindings
  by_cases h : e.length + ds.countP (default_is_new e b) = e.length
  · have h0 : ds.countP (default_is_new e b) = 0 := by omega
    have hnil : merge_new_bindings e b ds = [] := by
      apply List.eq_nil_of_length_eq_zero
      rw [merge_new_bindings_length, h0]
    simp [h, hnil]
  · simp [h]

theorem merge_bindings_of_countP_zero (e : List ConfigurationBinding) (b : Nat)
    (ds : List DefaultBinding) (h : ds.countP (default_is_new e b) = 0) :
    merge_bindings e b ds = e := by
  unfold merge_bindings
  simp [h]

theorem merge_new_trigger_not_in_existing (e : List ConfigurationBinding) (b : Nat)
    (ds : List DefaultBinding) :
    ∀ bnd ∈ merge_new_bindings e b ds, ∀ old ∈ e,
      binding_trigger bnd ≠ binding_trigger old := by
  intro bnd hbnd old hold
  rw [merge_new_bindings_eq_filter_map] at hbnd
  obtain ⟨d, hd, rfl⟩ := List.mem_map.mp hbnd
  have hnew : default_is_new e b d = true := List.of_mem_filter hd
  have hnone := (default_is_new_iff e b d).mp hnew old hold
  intro hcontra
  apply hnone
  rw [binding_matches_iff]
  rw [← hcontra, binding_trigger_default_binding_as_new]
  rfl

theorem find_merge_preserved (e : List ConfigurationBinding) (b : Nat)
    (ds : List DefaultBinding) (m s f : Nat)
    (h : (find_configured_binding e m s f).isSome) :
    find_configured_binding (merge_bindings e b ds) m s f =
      find_configured_binding e m s f := by
  rw [merge_bindings_eq]
  obtain ⟨x, hx⟩ := Option.isSome_iff_exists.mp h
  unfold find_configured_binding at hx ⊢
  rw [List.find?_append, hx]
  rfl

theorem merged_contains_default_trigger (e : List ConfigurationBinding) (b : Nat)
    (ds : List DefaultBinding) (d : DefaultBinding) (hd : d ∈ ds) :
    (find_configured_binding (merge_bindings e b ds)
        (d.modifiers ||| b) d.symbol d.flags).isSome := by
  rw [merge_bindings_eq, find_configured_binding, List.find?_isSome]
  by_cases h : default_is_new e b d
  · refine ⟨default_binding_as_new b d, ?_, ?_⟩
    · apply List.mem_append_right
      rw [merge_new_bindings_eq_filter_map]
      exact List.mem_map_of_mem _ (List.mem_filter_of_mem hd h)
    · rw [binding_matches_iff, binding_trigger_default_binding_as_new]
      rfl
  · rcases hfind : find_configured_binding e (d.modifiers ||| b) d.symbol d.flags with
      _ | x
    · exact absurd (by simp [default_is_new, hfind]) h
    · rw [find_configured_binding] at hfind
      exact ⟨x, List.mem_append_left _ (List.mem_of_find?_eq_some hfind),
        List.find?_some hfind⟩

theorem countP_merged_second_run_zero (e : List ConfigurationBinding) (b : Nat)
    (ds : List DefaultBinding) :
    ds.countP (default_is_new (merge_bindings e b ds) b) = 0 := by
  rw [List.countP_eq_zero]
  intro d hd
  have hsome := merged_contains_default_trigger e b ds d hd
  simp [default_is_new, Option.isNone]
  obtain ⟨x, hx⟩ := Option.isSome_iff_exists.mp hsome
  simp [hx]

/-! ## Claims about the merge (C1, C2) -/

/-- C1 — Merge non-destructiveness: for both merge functions, every
pre-existing binding stays in place and unchanged (the merged table is the
input table followed by the appended defaults), every appended binding's
trigger differs from every pre-existing binding's trigger (so a default
colliding with a user binding is skipped and no duplicate of the user's
trigger is created), and looking up any trigger that was present before
the merge still yields the same binding, with the same action list and
payload. -/
theorem claim_merge_non_destructive :
    (∀ c : Keyboard,
      (merge_with_default_key_bindings c).keys =
        c.keys ++ merge_new_bindings c.keys c.modifiers default_key_bindings ∧
      (∀ bnd ∈ merge_new_bindings c.keys c.modifiers default_key_bindings,
        ∀ old ∈ c.keys, binding_trigger bnd ≠ binding_trigger old) ∧
      (∀ m s f : Nat, (find_configured_binding c.keys m s f).isSome →
        find_configured_binding (merge_with_default_key_bindings c).keys m s f =
          find_configured_binding c.keys m s f)) ∧
    (∀ c : Mouse,
      (merge_with_default_button_bindings c).buttons =
        c.buttons ++ merge_new_bindings c.buttons c.modifiers default_button_bindings ∧
      (∀ bnd ∈ merge_new_bindings c.buttons c.modifiers default_button_bindings,
        ∀ old ∈ c.buttons, binding_trigger bnd ≠ binding_trigger old) ∧
      (∀ m s f : Nat, (find_configured_binding c.buttons m s f).isSome →
        find_configured_binding (merge_with_default_button_bindings c).buttons m s f =
          find_configured_binding c.buttons m s f)) := by
  constructor
  · intro c
    refine ⟨merge_bindings_eq _ _ _, merge_new_trigger_not_in_existing _ _ _, ?_⟩
    intro m s f h
    exact find_merge_preserved _ _ _ _ _ _ h
  · intro c
    refine ⟨merge_bindings_eq _ _ _, merge_new_trigger_not_in_existing _ _ _, ?_⟩
    intro m s f h
    exact find_merge_preserved _ _ _ _ _ _ h

/-- Witness for C1 at a concrete input (scenario 2 of the spec): the user
table holds `(MOD4, q, 0) → QUIT` and the defaults contain `(0, q, 0)`
with base modifier MOD4; after the merge the lookup at `(MOD4, q, 0)`
still yields the user's binding. -/
theorem claim_merge_non_destructive_witness :
    find_configured_binding (merge_with_default_key_bindings
        { modifiers := XCB_MOD_MASK_4,
          keys := [⟨XCB_MOD_MASK_4, XK_q, 0,
            [⟨ActionCode.ACTION_QUIT, DataValue.none⟩]⟩] }).keys
      XCB_MOD_MASK_4 XK_q 0 =
    some ⟨XCB_MOD_MASK_4, XK_q, 0, [⟨ActionCode.ACTION_QUIT, DataValue.none⟩]⟩ := by
  rw [(claim_merge_non_destructive.1
    { modifiers := XCB_MOD_MASK_4,
      keys := [⟨XCB_MOD_MASK_4, XK_q, 0,
        [⟨ActionCode.ACTION_QUIT, DataValue.none⟩]⟩] }).2.2
    XCB_MOD_MASK_4 XK_q 0 (by decide)]
  decide

/-- C2 — Merge idempotence: for both merge functions and every input
table, a second run on the already-merged table changes nothing (the
result is identical), and on the second run every default's effective
trigger is found (pass 1 counts zero new bindings, so the early-return
shortcut fires). -/
theorem claim_merge_idempotent :
    (∀ c : Keyboard,
      merge_with_default_key_bindings (merge_with_default_key_bindings c) =
        merge_with_default_key_bindings c ∧
      default_key_bindings.countP
        (default_is_new (merge_with_default_key_bindings c).keys c.modifiers) = 0) ∧
    (∀ c : Mouse,
      merge_with_default_button_bindings (merge_with_default_button_bindings c) =
        merge_with_default_button_bindings c ∧
      default_button_bindings.countP
        (default_is_new (merge_with_default_button_bindings c).buttons c.modifiers)
        = 0) := by
  constructor
  · intro c
    obtain ⟨mods, keys⟩ := c
    have h := merge_bindings_of_countP_zero
      (merge_bindings keys mods default_key_bindings) mods default_key_bindings
      (countP_merged_second_run_zero keys mods default_key_bindings)
    exact ⟨congrArg (Keyboard.mk mods) h,
      countP_merged_second_run_zero keys mods default_key_bindings⟩
  · intro c
    obtain ⟨mods, buttons⟩ := c
    have h := merge_bindings_of_countP_zero
      (merge_bindings buttons mods default_button_bindings) mods default_button_bindings
      (countP_merged_second_run_zero buttons mods default_button_bindings)
    exact ⟨congrArg (Mouse.mk mods) h,
      countP_merged_second_run_zero buttons mods default_button_bindings⟩

/-! ## Completeness and uniqueness of the merge (C3, C4, C10) -/

theorem countP_existing_zero_of_new (e : List ConfigurationBinding) (b : Nat)
    (d : DefaultBinding) (hnew : default_is_new e b d = true) :
    e.countP (binding_matches (d.modifiers ||| b) d.symbol d.flags) = 0 := by
  rw [List.countP_eq_zero]
  intro x hx
  simpa using (default_is_new_iff e b d).mp hnew x hx

theorem countP_image_le_one {α β : Type} [DecidableEq β] (f : α → β)
    (l : List α) (h : (l.map f).Nodup) (t : β) :
    l.countP (fun a => decide (f a = t)) ≤ 1 := by
  induction l with
  | nil => simp
  | cons a l ih =>
    rw [List.map_cons, List.nodup_cons] at h
    rw [List.countP_cons]
    by_cases ha : f a = t
    · have hz : l.countP (fun a' => decide (f a' = t)) = 0 := by
        rw [List.countP_eq_zero]
        intro x hx
        simp only [decide_eq_true_eq]
        intro hxt
        exact h.1 (ha ▸ hxt ▸ List.mem_map_of_mem f hx)
      simp [hz, ha]
    · have := ih h.2
      simp [ha]
      omega

theorem countP_merged_eq_one (e : List ConfigurationBinding) (b : Nat)
    (ds : List DefaultBinding) (hnodup : (ds.map (effective_trigger b)).Nodup)
    (d : DefaultBinding) (hd : d ∈ ds) (hnew : default_is_new e b d = true) :
    (merge_bindings e b ds).countP
      (binding_matches (d.modifiers ||| b) d.symbol d.flags) = 1 := by
  rw [merge_bindings_eq, List.countP_append,
    countP_existing_zero_of_new e b d hnew]
  rw [merge_new_bindings_eq_filter_map, List.countP_map]
  show 0 + (ds.filter (default_is_new e b)).countP (fun d' =>
    binding_matches (d.modifiers ||| b) d.symbol d.flags
      (default_binding_as_new b d')) = 1
  have hcongr : ds.countP (fun d' =>
      binding_matches (d.modifiers ||| b) d.symbol d.flags
        (default_binding_as_new b d')) =
      ds.countP (fun d' =>
        decide (effective_trigger b d' = effective_trigger b d)) := by
    apply List.countP_congr
    intro d' _
    rw [binding_matches_iff, binding_trigger_default_binding_as_new,
      decide_eq_true_eq]
    exact Iff.rfl
  have hub : (ds.filter (default_is_new e b)).countP (fun d' =>
      binding_matches (d.modifiers ||| b) d.symbol d.flags
        (default_binding_as_new b d')) ≤ 1 := by
    calc (ds.filter (default_is_new e b)).countP (fun d' =>
          binding_matches (d.modifiers ||| b) d.symbol d.flags
            (default_binding_as_new b d')) ≤
        ds.countP (fun d' =>
          binding_matches (d.modifiers ||| b) d.symbol d.flags
            (default_binding_as_new b d')) :=
        (List.filter_sublist ds).countP_le _
      _ ≤ 1 := by
        rw [hcongr]
        exact countP_image_le_one (effective_trigger b) ds hnodup _
  have hlb : 0 < (ds.filter (default_is_new e b)).countP (fun d' =>
      binding_matches (d.modifiers ||| b) d.symbol d.flags
        (default_binding_as_new b d')) := by
    refine List.countP_pos_iff.mpr ⟨d, List.mem_filter_of_mem hd hnew, ?_⟩
    rw [binding_matches_iff, binding_trigger_default_binding_as_new]
    rfl
  omega

theorem merged_match_eq (e : List ConfigurationBinding) (b : Nat)
    (ds : List DefaultBinding) (hnodup : (ds.map (effective_trigger b)).Nodup)
    (d : DefaultBinding) (hd : d ∈ ds) (hnew : default_is_new e b d = true) :
    ∀ bnd ∈ merge_bindings e b ds,
      binding_matches (d.modifiers ||| b) d.symbol d.flags bnd = true →
        bnd = default_binding_as_new b d := by
  intro bnd hbnd hmatch
  rw [merge_bindings_eq] at hbnd
  rcases List.mem_append.mp hbnd with h | h
  · exact absurd hmatch (by simpa using (default_is_new_iff e b d).mp hnew bnd h)
  · rw [merge_new_bindings_eq_filter_map] at h
    obtain ⟨d', hd', rfl⟩ := List.mem_map.mp h
    have heq : effective_trigger b d' = effective_trigger b d := by
      have h' := (binding_matches_iff _ _ _ _).mp hmatch
      rw [binding_trigger_default_binding_as_new] at h'
      exact h'
    have hd'mem : d' ∈ ds := List.mem_of_mem_filter hd'
    rw [List.inj_on_of_nodup_map hnodup hd'mem hd heq]

/-- C3 (amended) — Merge completeness: unconditionally, new entries are
appended after all pre-existing bindings in declaration order and the
final count is the old count plus the number of absent defaults;
provided additionally that no two defaults share an effective trigger
under the table's base modifier (which holds for the compiled-in default
base modifier MOD4, but can fail, e.g. when the base modifier contains
SHIFT), for every default whose effective trigger was absent the result
holds exactly one binding with that trigger, and that binding carries the
effective modifiers, symbol and flags and a single action equal by value
to the default's template. -/
theorem claim_merge_completeness (c : Keyboard) :
    (merge_with_default_key_bindings c).keys =
      c.keys ++ merge_new_bindings c.keys c.modifiers default_key_bindings ∧
    (merge_with_default_key_bindings c).keys.length =
      c.keys.length +
        default_key_bindings.countP (default_is_new c.keys c.modifiers) ∧
    ((default_key_bindings.map (effective_trigger c.modifiers)).Nodup →
      ∀ d ∈ default_key_bindings, default_is_new c.keys c.modifiers d = true →
        (merge_with_default_key_bindings c).keys.countP
          (binding_matches (d.modifiers ||| c.modifiers) d.symbol d.flags) = 1 ∧
        ∀ bnd ∈ (merge_with_default_key_bindings c).keys,
          binding_matches (d.modifiers ||| c.modifiers) d.symbol d.flags bnd
              = true →
            bnd = default_binding_as_new c.modifiers d) := by
  obtain ⟨mods, keys⟩ := c
  refine ⟨merge_bindings_eq _ _ _, ?_, ?_⟩
  · show (merge_bindings keys mods default_key_bindings).length = _
    rw [merge_bindings_eq, List.length_append, merge_new_bindings_length]
  · intro hnodup d hd hnew
    exact ⟨countP_merged_eq_one keys mods default_key_bindings hnodup d hd hnew,
      merged_match_eq keys mods default_key_bindings hnodup d hd hnew⟩

/-- Counterexample for C3 as stated: with base modifier SHIFT and an empty
table, the default `(SHIFT, r, 0) → RELOAD_CONFIGURATION` has effective
trigger `(SHIFT, r, 0)`, which is absent from the table, yet the merged
table holds TWO bindings with that trigger (the default `(0, r, 0) →
REMOVE_FRAME` collides after OR-ing with the base), not exactly one. -/
theorem claim_merge_completeness_counterexample :
    (⟨XCB_MOD_MASK_SHIFT, 0, XK_r,
        ⟨ActionCode.ACTION_RELOAD_CONFIGURATION, DataValue.none⟩⟩ : DefaultBinding)
      ∈ default_key_bindings ∧
    default_is_new [] XCB_MOD_MASK_SHIFT
      ⟨XCB_MOD_MASK_SHIFT, 0, XK_r,
        ⟨ActionCode.ACTION_RELOAD_CONFIGURATION, DataValue.none⟩⟩ = true ∧
    (merge_with_default_key_bindings
        { modifiers := XCB_MOD_MASK_SHIFT, keys := [] }).keys.countP
      (binding_matches (XCB_MOD_MASK_SHIFT ||| XCB_MOD_MASK_SHIFT) XK_r 0) = 2 := by
  decide

/-- Witness for C3's amended theorem at the compiled-in base modifier MOD4
and the empty table: the default `(SHIFT, r, 0)` yields exactly one merged
binding at `(SHIFT|MOD4, r, 0)` (scenario 1 of the spec). -/
theorem claim_merge_completeness_witness :
    (merge_with_default_key_bindings
        { modifiers := XCB_MOD_MASK_4, keys := [] }).keys.countP
      (binding_matches (XCB_MOD_MASK_SHIFT ||| XCB_MOD_MASK_4) XK_r 0) = 1 :=
  ((claim_merge_completeness
      { modifiers := XCB_MOD_MASK_4, keys := [] }).2.2 (by decide)
    ⟨XCB_MOD_MASK_SHIFT, 0, XK_r,
      ⟨ActionCode.ACTION_RELOAD_CONFIGURATION, DataValue.none⟩⟩
    (by decide) (by decide)).1

theorem merge_bindings_unique (e : List ConfigurationBinding) (b : Nat)
    (ds : List DefaultBinding) (hu : trigger_unique e)
    (hnodup : (ds.map (effective_trigger b)).Nodup) :
    trigger_unique (merge_bindings e b ds) := by
  rw [merge_bindings_eq]
  rw [trigger_unique, List.pairwise_append]
  refine ⟨hu, ?_, ?_⟩
  · rw [merge_new_bindings_eq_filter_map, List.pairwise_map]
    have hpw : ds.Pairwise
        (fun d d' => effective_trigger b d ≠ effective_trigger b d') :=
      List.pairwise_map.mp hnodup
    exact hpw.filter _
  · intro old hold bnd hbnd
    exact (merge_new_trigger_not_in_existing e b ds bnd hbnd old hold).symm

theorem default_button_triggers_nodup (b : Nat) :
    (default_button_bindings.map (effective_trigger b)).Nodup := by
  simp [default_button_bindings, effective_trigger]

/-- C4 (amended) — Trigger uniqueness: the button-binding merge preserves
the uniqueness invariant for every choice of the base modifier (the three
default buttons have distinct indices, so their effective triggers are
always distinct); the key-binding merge preserves it provided no two
defaults share an effective trigger under the chosen base modifier (true
for the compiled-in default base MOD4, false e.g. when the base contains
SHIFT, see the counterexample). -/
theorem claim_trigger_uniqueness :
    (∀ c : Keyboard, trigger_unique c.keys →
      (default_key_bindings.map (effective_trigger c.modifiers)).Nodup →
      trigger_unique (merge_with_default_key_bindings c).keys) ∧
    (∀ c : Mouse, trigger_unique c.buttons →
      trigger_unique (merge_with_default_button_bindings c).buttons) := by
  constructor
  · intro c hu hnodup
    exact merge_bindings_unique _ _ _ hu hnodup
  · intro c hu
    exact merge_bindings_unique _ _ _ hu (default_button_triggers_nodup c.modifiers)

/-- Counterexample for C4 as stated ("for every choice of the table-wide
base modifier"): the empty table satisfies the invariant, but with base
modifier SHIFT the merged key table violates it — the defaults
`(SHIFT, r, 0)` and `(0, r, 0)` acquire the same effective trigger and are
both appended. -/
theorem claim_trigger_uniqueness_counterexample :
    trigger_unique ([] : List ConfigurationBinding) ∧
    ¬trigger_unique (merge_with_default_key_bindings
        { modifiers := XCB_MOD_MASK_SHIFT, keys := [] }).keys := by
  decide

/-- Witness for C4's amended theorem: with the compiled-in base modifier
MOD4 and the empty table, the merged key table satisfies the uniqueness
invariant. -/
theorem claim_trigger_uniqueness_witness :
    trigger_unique (merge_with_default_key_bindings
        { modifiers := XCB_MOD_MASK_4, keys := [] }).keys :=
  claim_trigger_uniqueness.1 { modifiers := XCB_MOD_MASK_4, keys := [] }
    (by decide) (by decide)

theorem two_le_countP_of_two_indices {α : Type} (p : α → Bool) (l : List α)
    (i j : Nat) (hij : i < j) (a₁ a₂ : α)
    (h₁ : l[i]? = some a₁) (h₂ : l[j]? = some a₂)
    (hp₁ : p a₁ = true) (hp₂ : p a₂ = true) :
    2 ≤ l.countP p := by
  obtain ⟨hjlt, hje⟩ := List.getElem?_eq_some.mp h₂
  have hdrop : l.drop j = a₂ :: l.drop (j + 1) := by
    rw [List.drop_eq_getElem_cons hjlt, hje]
  have hmem : a₁ ∈ l.take j := by
    have htake : (l.take j)[i]? = some a₁ := by
      simp [List.getElem?_take, hij, h₁]
    obtain ⟨hlt, he⟩ := List.getElem?_eq_some.mp htake
    exact he ▸ List.getElem_mem hlt
  have h1 : 0 < (l.take j).countP p := List.countP_pos_iff.mpr ⟨a₁, hmem, hp₁⟩
  have h2 : 0 < (l.drop j).countP p := by
    rw [hdrop, List.countP_cons, hp₂]
    simp
  have hsum : (l.take j).countP p + (l.drop j).countP p = l.countP p := by
    rw [← List.countP_append, List.take_append_drop]
  omega

/-- C10 — During pass 2 the duplicate check runs against a table whose
stored count still equals the pre-merge count (`number_of_keys` /
`number_of_buttons` is assigned only after the loop), so entries appended
earlier in the same call are invisible to later duplicate checks: whenever
two defaults at different positions of the default list acquire an equal
effective trigger after OR-ing with the base modifier and that trigger is
absent from the input table, both are appended, and the merged table holds
at least two bindings with that trigger.  `merge_bindings` is the common
two-pass body of both `merge_with_default_key_bindings` and
`merge_with_default_button_bindings`. -/
theorem claim_pass2_appends_colliding_defaults
    (e : List ConfigurationBinding) (b : Nat) (ds : List DefaultBinding)
    (i j : Nat) (d₁ d₂ : DefaultBinding) (hij : i < j)
    (h₁ : ds[i]? = some d₁) (h₂ : ds[j]? = some d₂)
    (heq : effective_trigger b d₁ = effective_trigger b d₂)
    (hnew : default_is_new e b d₂ = true) :
    2 ≤ (merge_bindings e b ds).countP
          (binding_matches (d₂.modifiers ||| b) d₂.symbol d₂.flags) := by
  rw [merge_bindings_eq, List.countP_append]
  have hnew₁ : default_is_new e b d₁ = true := by
    rw [default_is_new_congr e b d₁ d₂ heq]
    exact hnew
  have hcount : 2 ≤ (merge_new_bindings e b ds).countP
      (binding_matches (d₂.modifiers ||| b) d₂.symbol d₂.flags) := by
    rw [merge_new_bindings_eq_filter_map, List.countP_map]
    have h2le := two_le_countP_of_two_indices
      (fun d' => binding_matches (d₂.modifiers ||| b) d₂.symbol d₂.flags
        (default_binding_as_new b d') && default_is_new e b d')
      ds i j hij d₁ d₂ h₁ h₂
      (by
        rw [Bool.and_eq_true]
        refine ⟨?_, hnew₁⟩
        rw [binding_matches_iff, binding_trigger_default_binding_as_new, heq]
        rfl)
      (by
        rw [Bool.and_eq_true]
        refine ⟨?_, hnew⟩
        rw [binding_matches_iff, binding_trigger_default_binding_as_new]
        rfl)
    calc 2 ≤ ds.countP (fun d' =>
            binding_matches (d₂.modifiers ||| b) d₂.symbol d₂.flags
              (default_binding_as_new b d') && default_is_new e b d') := h2le
      _ = (ds.filter (default_is_new e b)).countP (fun d' =>
            binding_matches (d₂.modifiers ||| b) d₂.symbol d₂.flags
              (default_binding_as_new b d')) := (List.countP_filter _ _ _).symm
  omega

/-- Witness for C10: base modifier SHIFT sends both `(SHIFT, r, 0) →
RELOAD_CONFIGURATION` (position 0) and `(0, r, 0) → REMOVE_FRAME`
(position 8) to the effective trigger `(SHIFT, r, 0)`; merging into the
empty table appends both. -/
theorem claim_pass2_appends_colliding_defaults_witness :
    2 ≤ (merge_bindings [] XCB_MOD_MASK_SHIFT default_key_bindings).countP
          (binding_matches (0 ||| XCB_MOD_MASK_SHIFT) XK_r 0) :=
  claim_pass2_appends_colliding_defaults [] XCB_MOD_MASK_SHIFT
    default_key_bindings 0 8
    ⟨XCB_MOD_MASK_SHIFT, 0, XK_r,
      ⟨ActionCode.ACTION_RELOAD_CONFIGURATION, DataValue.none⟩⟩
    ⟨0, 0, XK_r, ⟨ActionCode.ACTION_REMOVE_FRAME, DataValue.none⟩⟩
    (by decide) (by decide) (by decide) (by decide) (by decide)

/-! ## Claims about the event dispatcher (C5–C9) -/

/-- C5 — Extension precedence: after clearing the top "from-server" tag
bit, an event whose type code is at or above the extension base is routed
to screen-change handling (output re-enumeration and reconciliation) with
no other handler running and no state change, even when the code equals a
core event constant — the check precedes all core dispatch; a core code
below the base with no dispatch entry is dropped with no state change and
no request. -/
theorem claim_extension_precedence (randr_event_base : Nat) (env : Env)
    (st : DispatcherState) (event : RawEvent) :
    (randr_event_base ≤ event.response_type &&& 0x7f →
      handle_event randr_event_base env st event =
        (st, [Request.merge_monitors])) ∧
    (event.response_type &&& 0x7f < randr_event_base →
      (event.response_type &&& 0x7f) ∉ ([XCB_MAP_REQUEST, XCB_BUTTON_PRESS,
        XCB_MOTION_NOTIFY, XCB_BUTTON_RELEASE, XCB_PROPERTY_NOTIFY,
        XCB_UNMAP_NOTIFY, XCB_DESTROY_NOTIFY, XCB_CONFIGURE_REQUEST,
        XCB_KEY_PRESS] : List Nat) →
      handle_event randr_event_base env st event = (st, [])) := by
  constructor
  · intro h
    simp [handle_event, h, handle_screen_change]
  · intro h hnot
    simp only [List.mem_cons, List.not_mem_nil, or_false, not_or] at hnot
    obtain ⟨h1, h2, h3, h4, h5, h6, h7, h8, h9⟩ := hnot
    simp [handle_event, Nat.not_le.mpr h, h1, h2, h3, h4, h5, h6, h7, h8, h9]

/-- Witness for C5: with extension base 2, an event of raw type 2 — the
numeric value of the core KeyPress code — is routed to screen-change
handling; with extension base 200, an event of type 3 (a core code with no
dispatch entry) is dropped. -/
theorem claim_extension_precedence_witness :
    handle_event 2 env_empty dispatcher_rest (event_of_code 2) =
      (dispatcher_rest, [Request.merge_monitors]) ∧
    handle_event 200 env_empty dispatcher_rest (event_of_code 3) =
      (dispatcher_rest, []) :=
  ⟨(claim_extension_precedence 2 env_empty dispatcher_rest
      (event_of_code 2)).1 (by decide),
   (claim_extension_precedence 200 env_empty dispatcher_rest
      (event_of_code 3)).2 (by decide) (by decide)⟩

/-- C6 (amended) — Grab exclusivity: handling a button release, and
handling a motion event whose geometry query fails, always leaves the grab
inactive; however, the motion handler never consults the grab flag, so a
motion event while the grab is inactive has no side effect only when the
geometry query for the (stale) recorded target window fails — then the
state is unchanged and only the (idempotent) ungrab is re-issued; if the
stale target still reports geometry, a reposition request is issued
exactly as if the grab were active (see the counterexample). -/
theorem claim_grab_exclusivity (env : Env) (st : DispatcherState)
    (event : RawEvent) :
    (handle_button_release st event).1.grab_active = false ∧
    (env.geometry st.selected_window.xcb_window = none →
      (handle_motion_notify env st event).1.grab_active = false) ∧
    (st.grab_active = false →
      env.geometry st.selected_window.xcb_window = none →
      handle_motion_notify env st event = (st, [Request.ungrab_pointer])) := by
  refine ⟨rfl, ?_, ?_⟩
  · intro hg
    simp [handle_motion_notify, hg]
  · intro hactive hg
    obtain ⟨sel, ga⟩ := st
    simp only at hactive
    subst hactive
    simp [handle_motion_notify, hg]

/-- Counterexample for C6 as stated: in the state left over after a grab
of window 7 is released (grab inactive, `selected_window` never cleared),
a motion event still queries the stale window's geometry and — since the
query succeeds — issues a reposition request: a motion event while
`active = false` is NOT free of side effects. -/
theorem claim_grab_exclusivity_counterexample :
    (selected7_state false).grab_active = false ∧
    (handle_motion_notify env_popup7 (selected7_state false)
        motion_event_110_205).2 =
      [Request.configure_window 7 (XCB_CONFIG_WINDOW_X ||| XCB_CONFIG_WINDOW_Y)
        [20, 25]] := by
  decide

/-- Witness for C6's amended theorem: from the rest state (stale target
window 0) with an environment that reports no geometry, a motion event
leaves the state unchanged and only re-issues the ungrab. -/
theorem claim_grab_exclusivity_witness :
    handle_motion_notify env_empty dispatcher_rest
        (event_of_code XCB_MOTION_NOTIFY) =
      (dispatcher_rest, [Request.ungrab_pointer]) :=
  (claim_grab_exclusivity env_empty dispatcher_rest
      (event_of_code XCB_MOTION_NOTIFY)).2.2 (by decide) (by decide)

/-- C7 — Configure request: a tracked (managed) window's request is
ignored entirely (no configure call, no state change); an untracked
window's request is honored verbatim — one configure call echoing back the
requested x, y, width, height and border width unchanged. -/
theorem claim_configure_request (env : Env) (st : DispatcherState)
    (event : RawEvent) :
    ((env.window_of event.window).isSome →
      handle_configure_request env st event = (st, [])) ∧
    (env.window_of event.window = none →
      handle_configure_request env st event =
        (st, [Request.configure_window event.window
                (XCB_CONFIG_SIZE ||| XCB_CONFIG_WINDOW_BORDER_WIDTH)
                [event.x, event.y, event.width, event.height,
                 event.border_width]])) := by
  constructor
  · intro h
    obtain ⟨s, hs⟩ := Option.isSome_iff_exists.mp h
    simp [handle_configure_request, hs]
  · intro h
    simp [handle_configure_request, h]

/-- Witness for C7: the tracked window 7's request (for geometry
(0, 0, 500 × 500), scenario 5 of the spec) is dropped; the untracked
window 9's request is echoed back verbatim. -/
theorem claim_configure_request_witness :
    handle_configure_request env_popup7 dispatcher_rest
        { event_of_code XCB_CONFIGURE_REQUEST with
            window := 7, width := 500, height := 500 } =
      (dispatcher_rest, []) ∧
    handle_configure_request env_popup7 dispatcher_rest
        { event_of_code XCB_CONFIGURE_REQUEST with
            window := 9, x := 5, y := 6, width := 500, height := 500,
            border_width := 2 } =
      (dispatcher_rest,
        [Request.configure_window 9
          (XCB_CONFIG_SIZE ||| XCB_CONFIG_WINDOW_BORDER_WIDTH)
          [5, 6, 500, 500, 2]]) :=
  ⟨(claim_configure_request env_popup7 dispatcher_rest
      { event_of_code XCB_CONFIGURE_REQUEST with
          window := 7, width := 500, height := 500 }).1 (by decide),
   (claim_configure_request env_popup7 dispatcher_rest
      { event_of_code XCB_CONFIGURE_REQUEST with
          window := 9, x := 5, y := 6, width := 500, height := 500,
          border_width := 2 }).2 (by decide)⟩

/-- C8 — Motion reposition formula: a motion event handled while a grab is
in progress, for which the geometry query on the grabbed window succeeds,
issues exactly one reposition request, to
`geometry.(x, y) + (pointer_root_position - last_mouse_position)`, and
updates the stored last mouse position to the event's root position. -/
theorem claim_motion_reposition (env : Env) (st : DispatcherState)
    (event : RawEvent) (g : Geometry) (_hactive : st.grab_active = true)
    (hg : env.geometry st.selected_window.xcb_window = some g) :
    handle_motion_notify env st event =
      ({ st with selected_window :=
           { st.selected_window with
               old_mouse := ⟨event.root_x, event.root_y⟩ } },
       [Request.configure_window st.selected_window.xcb_window
          (XCB_CONFIG_WINDOW_X ||| XCB_CONFIG_WINDOW_Y)
          [g.x + (event.root_x - st.selected_window.old_mouse.x),
           g.y + (event.root_y - st.selected_window.old_mouse.y)]]) := by
  simp [handle_motion_notify, hg]

/-- Witness for C8 (scenario 3 of the spec): a grab of window 7 started at
root position (100, 200), the window sits at (10, 20); a motion to
(110, 205) repositions to (20, 25) and stores last mouse position
(110, 205). -/
theorem claim_motion_reposition_witness :
    handle_motion_notify env_popup7 (selected7_state true)
        motion_event_110_205 =
      ({ selected_window :=
           { start := ⟨200, 200⟩,
             old_mouse := ⟨110, 205⟩,
             xcb_window := 7 },
         grab_active := true },
       [Request.configure_window 7
          (XCB_CONFIG_WINDOW_X ||| XCB_CONFIG_WINDOW_Y) [20, 25]]) := by
  exact claim_motion_reposition env_popup7 (selected7_state true)
    motion_event_110_205 ⟨10, 20, 300, 400⟩ (by decide) (by decide)

/-- C9 — Button-press grab initiation: a grab starts exactly when the
window under the pointer is tracked, in the popup display state, and its
geometry query succeeds; then `start` is set to
`(pointer_root_y, pointer_root_y)` (both components from the vertical
coordinate, as in the source), `old_mouse` to the root pointer position,
the target window handle is recorded, and the exclusive pointer grab is
acquired (`active = true`); in every other case the state is unchanged and
no grab is acquired. -/
theorem claim_button_press_grab (env : Env) (st : DispatcherState)
    (event : RawEvent) :
    (env.window_of event.child = none →
      handle_button_press env st event = (st, [])) ∧
    (∀ s, env.window_of event.child = some s →
      s ≠ WindowDisplayState.popup →
      handle_button_press env st event = (st, [])) ∧
    (env.window_of event.child = some WindowDisplayState.popup →
      env.geometry event.child = none →
      handle_button_press env st event = (st, [])) ∧
    (∀ g, env.window_of event.child = some WindowDisplayState.popup →
      env.geometry event.child = some g →
      handle_button_press env st event =
        ({ selected_window :=
             { start := ⟨event.root_y, event.root_y⟩,
               old_mouse := ⟨event.root_x, event.root_y⟩,
               xcb_window := event.child },
           grab_active := true },
         [Request.grab_pointer event.root])) := by
  refine ⟨?_, ?_, ?_, ?_⟩
  · intro h
    simp [handle_button_press, h]
  · intro s hs hsp
    simp [handle_button_press, hs, hsp]
  · intro hw hg
    simp [handle_button_press, hw, hg]
  · intro g hw hg
    simp [handle_button_press, hw, hg]

/-- Witness for C9: a button press at root position (100, 200) over the
popup window 7 (geometry available) starts a grab with
`start = (200, 200)`, `old_mouse = (100, 200)` and target window 7; the
same press over the untracked window 9 changes nothing. -/
theorem claim_button_press_grab_witness :
    handle_button_press env_popup7 dispatcher_rest
        { event_of_code XCB_BUTTON_PRESS with
            child := 7, root := 1, root_x := 100, root_y := 200 } =
      ({ selected_window :=
           { start := ⟨200, 200⟩,
             old_mouse := ⟨100, 200⟩,
             xcb_window := 7 },
         grab_active := true },
       [Request.grab_pointer 1]) ∧
    handle_button_press env_popup7 dispatcher_rest
        { event_of_code XCB_BUTTON_PRESS with
            child := 9, root := 1, root_x := 100, root_y := 200 } =
      (dispatcher_rest, []) :=
  ⟨(claim_button_press_grab env_popup7 dispatcher_rest
      { event_of_code XCB_BUTTON_PRESS with
          child := 7, root := 1, root_x := 100, root_y := 200 }).2.2.2
      ⟨10, 20, 300, 400⟩ (by decide) (by decide),
   (claim_button_press_grab env_popup7 dispatcher_rest
      { event_of_code XCB_BUTTON_PRESS with
          child := 9, root := 1, root_x := 100, root_y := 200 }).1
      (by decide)⟩

end Fensterchef
